import Mathlib

/-!
Shallow embedding of the mechanic-assignment core of the repository:
the SQL functions `calculate_distance`, `find_nearest_mechanic` and
`assign_mechanic_to_service` from
`supabase/migrations/20251002055930_create_business_logic_functions_fixed.sql`,
together with the relevant columns of the `mechanics`, `users`,
`service_requests` and `notifications` tables from the core schema
migration.

Modelling conventions:
  * SQL `numeric` becomes `ℝ`; nullable columns and nullable SQL values
    become `Option`.
  * SQL three-valued comparison `a <= b` in a WHERE clause is `sqlLE`:
    it holds only when both sides are non-NULL and the comparison is
    true (a NULL comparand makes the predicate not-true, so the row is
    filtered out), exactly as in PostgreSQL.
  * uuids become `Nat`; `||` string concatenation of a uuid uses its
    decimal rendering, which preserves the only property the claims
    use (the URL embeds the request id).
  * The `ORDER BY ... ASC LIMIT 1` of `find_nearest_mechanic` is
    embedded as `minRow`, which returns some row of minimal sort key;
    the source has no defined tie-break, so any minimising row is a
    faithful refinement.
  * plpgsql functions are total Lean functions; the embedding has no
    error branch because the embedded code raises no error on the
    modelled paths.
-/

namespace AutoServe

noncomputable section

/-- Postgres `radians(x)`: degrees to radians. -/
def radians (x : ℝ) : ℝ := x * Real.pi / 180

/-- Two-argument arctangent as provided by Postgres `atan2(y, x)`
(standard libm semantics). -/
def atan2 (y x : ℝ) : ℝ :=
  if 0 < x then Real.arctan (y / x)
  else if x < 0 then
    (if 0 ≤ y then Real.arctan (y / x) + Real.pi else Real.arctan (y / x) - Real.pi)
  else
    (if 0 < y then Real.pi / 2 else if y < 0 then -(Real.pi / 2) else 0)

/-- The intermediate `a` of `calculate_distance`:
`a := sin(dlat/2) * sin(dlat/2) + cos(radians(lat1)) * cos(radians(lat2)) * sin(dlon/2) * sin(dlon/2)`
with `dlat := radians(lat2 - lat1)` and `dlon := radians(lon2 - lon1)`. -/
def haversine_a (lat1 lon1 lat2 lon2 : ℝ) : ℝ :=
  let dlat := radians (lat2 - lat1)
  let dlon := radians (lon2 - lon1)
  Real.sin (dlat / 2) * Real.sin (dlat / 2) +
    Real.cos (radians lat1) * Real.cos (radians lat2) *
    Real.sin (dlon / 2) * Real.sin (dlon / 2)

/-- Body of `calculate_distance` after the NULL check:
`c := 2 * atan2(sqrt(a), sqrt(1 - a)); RETURN r * c` with `r := 6371`. -/
def haversine (lat1 lon1 lat2 lon2 : ℝ) : ℝ :=
  let r : ℝ := 6371
  let a := haversine_a lat1 lon1 lat2 lon2
  let c := 2 * atan2 (Real.sqrt a) (Real.sqrt (1 - a))
  r * c

/-- SQL function `calculate_distance(lat1, lon1, lat2, lon2)`: returns NULL
when any argument is NULL, otherwise the haversine distance. -/
def calculate_distance (lat1 lon1 lat2 lon2 : Option ℝ) : Option ℝ :=
  match lat1, lon1, lat2, lon2 with
  | some a1, some o1, some a2, some o2 => some (haversine a1 o1 a2 o2)
  | _, _, _, _ => none

/-- The haversine distance exactly as §4.1 of the specification words it:
`a = sin²(Δlat/2) + cos(radians(lat1))·cos(radians(lat2))·sin²(Δlon/2)`,
`c = 2·atan2(√a, √(1−a))`, `distance = 6371·c`. Written from the spec, to
be compared with the source-derived `haversine`. -/
def haversineSpec (lat1 lon1 lat2 lon2 : ℝ) : ℝ :=
  let dlat := radians (lat2 - lat1)
  let dlon := radians (lon2 - lon1)
  let a := Real.sin (dlat / 2) ^ 2 +
    Real.cos (radians lat1) * Real.cos (radians lat2) * Real.sin (dlon / 2) ^ 2
  let c := 2 * atan2 (Real.sqrt a) (Real.sqrt (1 - a))
  6371 * c

/-- SQL `a <= b` under three-valued logic, as used in a WHERE clause: true
only when both operands are non-NULL and the comparison holds. -/
def sqlLE (a b : Option ℝ) : Bool :=
  match a, b with
  | some x, some y => decide (x ≤ y)
  | _, _ => false

/-- Row of the `users` table (the columns read by the assignment core). -/
structure User where
  id : Nat
  is_active : Bool
  latitude : Option ℝ
  longitude : Option ℝ

/-- Row of the `mechanics` table (the columns read by the assignment core).
`service_radius_km` is a nullable `numeric(6,2)` column with `DEFAULT 10`
and no CHECK constraint. -/
structure Mechanic where
  id : Nat
  user_id : Nat
  service_radius_km : Option ℝ
  is_available : Bool
  is_approved : Bool

/-- Enum `service_request_status`. -/
inductive ServiceRequestStatus where
  | pending
  | assigned
  | in_progress
  | parts_recommended
  | completed
  | cancelled
deriving DecidableEq, Repr

/-- Row of the `service_requests` table, all columns (the frame claim is
about every field of this record). -/
structure ServiceRequest where
  id : Nat
  customer_id : Nat
  mechanic_id : Option Nat
  vehicle_type : String
  vehicle_make : Option String
  vehicle_model : Option String
  vehicle_year : Option Int
  issue_description : String
  status : ServiceRequestStatus
  latitude : Option ℝ
  longitude : Option ℝ
  address : String
  image_urls : List String
  scheduled_date : Option Nat
  completed_date : Option Nat
  estimated_cost : Option ℝ
  final_cost : Option ℝ
  created_at : Nat
  updated_at : Nat

/-- A row inserted into `notifications` by the trigger. `user_id` is the
inserted value (NULL possible only if the mechanic lookup failed, which
cannot happen for an id returned by `find_nearest_mechanic`). -/
structure Notification where
  user_id : Option Nat
  type : String
  title : String
  message : String
  action_url : String
deriving DecidableEq, Repr

/-- Snapshot of the tables the assignment core reads. -/
structure DB where
  mechanics : List Mechanic
  users : List User

/-- Some row of minimal key, embedding `ORDER BY key ASC LIMIT 1` (the
source has no tie-break; any minimising row refines it). -/
def minRow {α : Type} (key : α → ℝ) : List α → Option α
  | [] => none
  | r :: rs =>
    match minRow key rs with
    | none => some r
    | some b => if key b ≤ key r then some b else some r

/-- Rows of the join-and-filter in `find_nearest_mechanic`:
`FROM mechanics m JOIN users u ON u.id = m.user_id WHERE m.is_available
AND m.is_approved AND u.is_active AND u.latitude IS NOT NULL AND
u.longitude IS NOT NULL AND calculate_distance(u.latitude, u.longitude,
request_lat, request_lon) <= m.service_radius_km`. -/
def candidate_rows (db : DB) (request_lat request_lon : Option ℝ) :
    List (Mechanic × User) :=
  (db.mechanics.flatMap (fun m => db.users.map (fun u => (m, u)))).filter
    (fun p =>
      (p.2.id == p.1.user_id) && p.1.is_available && p.1.is_approved &&
        p.2.is_active && p.2.latitude.isSome && p.2.longitude.isSome &&
        sqlLE (calculate_distance p.2.latitude p.2.longitude request_lat request_lon)
          p.1.service_radius_km)

/-- Sort key of `find_nearest_mechanic`:
`calculate_distance(u.latitude, u.longitude, request_lat, request_lon)`.
Every row surviving the WHERE clause has a non-NULL distance, so the
`getD` default is never read on candidate rows. -/
def rowDist (request_lat request_lon : Option ℝ) (p : Mechanic × User) : ℝ :=
  (calculate_distance p.2.latitude p.2.longitude request_lat request_lon).getD 0

/-- SQL function `find_nearest_mechanic(request_lat, request_lon)`:
`SELECT m.id ... ORDER BY calculate_distance(...) ASC LIMIT 1`; the
variable stays NULL when no row qualifies. -/
def find_nearest_mechanic (db : DB) (request_lat request_lon : Option ℝ) :
    Option Nat :=
  (minRow (rowDist request_lat request_lon) (candidate_rows db request_lat request_lon)).map
    (fun p => p.1.id)

/-- Trigger function `assign_mechanic_to_service()` on `BEFORE INSERT` of a
service request: returns the (possibly mutated) NEW row together with the
list of `notifications` rows it inserts. -/
def assign_mechanic_to_service (db : DB) (NEW : ServiceRequest) :
    ServiceRequest × List Notification :=
  if NEW.status = ServiceRequestStatus.pending ∧ NEW.mechanic_id = none then
    match find_nearest_mechanic db NEW.latitude NEW.longitude with
    | some assigned_mechanic_id =>
      let NEW1 := { NEW with
        mechanic_id := some assigned_mechanic_id,
        status := ServiceRequestStatus.assigned }
      let mechanic_user_id :=
        (db.mechanics.find? (fun m => m.id == assigned_mechanic_id)).map
          (fun m => m.user_id)
      (NEW1,
        [ { user_id := mechanic_user_id,
            type := "service_assigned",
            title := "New Service Request",
            message := "You have been assigned a new service request",
            action_url := "/mechanic/services/" ++ toString NEW.id },
          { user_id := some NEW.customer_id,
            type := "mechanic_assigned",
            title := "Mechanic Assigned",
            message := "A mechanic has been assigned to your service request",
            action_url := "/customer/services/" ++ toString NEW.id } ])
    | none => (NEW, [])
  else (NEW, [])

/-- INSERT into `mechanics` for the columns modelled here, applying the
schema's column defaults: an outer `none` means the column was omitted
from the INSERT, so its DEFAULT applies (`service_radius_km DEFAULT 10`,
`is_available DEFAULT true`, `is_approved DEFAULT false`). -/
def insertMechanic (id user_id : Nat) (radius : Option (Option ℝ))
    (avail appr : Option Bool) : Mechanic :=
  { id := id,
    user_id := user_id,
    service_radius_km := radius.getD (some 10),
    is_available := avail.getD true,
    is_approved := appr.getD false }

/-- Everything the schema requires of a `mechanics` row's
`service_radius_km` column: it is `numeric(6,2)` (absolute value below
10000), nullable, and carries no CHECK constraint. -/
def mechanicRowOk (m : Mechanic) : Prop :=
  ∀ r, m.service_radius_km = some r → |r| < 10000

/-- Eligibility of a mechanic/owning-user pair for a request location, in
the vocabulary of the specification: owning account matches and is
active, mechanic available and approved, position known, and the
great-circle distance to the request is at most the mechanic's own
service radius. -/
def eligible (request_lat request_lon : Option ℝ) (m : Mechanic) (u : User) : Prop :=
  u.id = m.user_id ∧ m.is_available = true ∧ m.is_approved = true ∧
    u.is_active = true ∧ u.latitude ≠ none ∧ u.longitude ≠ none ∧
    ∃ d r, calculate_distance u.latitude u.longitude request_lat request_lon = some d ∧
      m.service_radius_km = some r ∧ d ≤ r

/-- Concrete fixture: an active user at the origin owning mechanic `m0`. -/
def u0 : User :=
  { id := 10, is_active := true, latitude := some 0, longitude := some 0 }

/-- Concrete fixture: an available, approved mechanic with a 10 km radius. -/
def m0 : Mechanic :=
  { id := 1, user_id := 10, service_radius_km := some 10,
    is_available := true, is_approved := true }

/-- Concrete fixture: a registry snapshot with exactly one eligible
mechanic. -/
def db0 : DB := { mechanics := [m0], users := [u0] }

/-- Concrete fixture: a registry snapshot with no mechanics at all. -/
def dbEmpty : DB := { mechanics := [], users := [] }

/-- Concrete fixture: a freshly created pending service request at the
origin. -/
def req0 : ServiceRequest :=
  { id := 42, customer_id := 5, mechanic_id := none, vehicle_type := "car",
    vehicle_make := none, vehicle_model := none, vehicle_year := none,
    issue_description := "flat tire", status := ServiceRequestStatus.pending,
    latitude := some 0, longitude := some 0, address := "origin",
    image_urls := [], scheduled_date := none, completed_date := none,
    estimated_cost := none, final_cost := none, created_at := 0,
    updated_at := 0 }

/-- Concrete fixture: a request that already carries an assignment. -/
def reqAssigned : ServiceRequest :=
  { req0 with status := ServiceRequestStatus.assigned, mechanic_id := some 1 }

end

/-- The three-valued `<=` is true exactly when both sides are non-NULL and
the real comparison holds. -/
theorem sqlLE_eq_true_iff (a b : Option ℝ) :
    sqlLE a b = true ↔ ∃ x y, a = some x ∧ b = some y ∧ x ≤ y := by
  cases a <;> cases b <;> simp [sqlLE]

/-- A non-NULL result of `calculate_distance` forces all four inputs to be
non-NULL and equals the haversine of their values. -/
theorem calculate_distance_eq_some {lat1 lon1 lat2 lon2 : Option ℝ} {d : ℝ}
    (h : calculate_distance lat1 lon1 lat2 lon2 = some d) :
    ∃ a1 o1 a2 o2, lat1 = some a1 ∧ lon1 = some o1 ∧ lat2 = some a2 ∧
      lon2 = some o2 ∧ haversine a1 o1 a2 o2 = d := by
  cases lat1 <;> cases lon1 <;> cases lat2 <;> cases lon2 <;>
    simp [calculate_distance] at h ⊢
  exact h

theorem minRow_eq_none_iff {α : Type} (key : α → ℝ) (l : List α) :
    minRow key l = none ↔ l = [] := by
  cases l with
  | nil => simp [minRow]
  | cons r rs =>
    simp only [minRow]
    cases h : minRow key rs with
    | none => simp
    | some b =>
      by_cases hk : key b ≤ key r <;> simp [hk]

theorem minRow_mem {α : Type} {key : α → ℝ} {l : List α} {b : α}
    (h : minRow key l = some b) : b ∈ l := by
  induction l generalizing b with
  | nil => simp [minRow] at h
  | cons r rs ih =>
    simp only [minRow] at h
    split at h
    · cases h
      exact List.mem_cons_self _ _
    · rename_i c hm
      by_cases hk : key c ≤ key r
      · rw [if_pos hk] at h
        cases h
        exact List.mem_cons_of_mem _ (ih hm)
      · rw [if_neg hk] at h
        cases h
        exact List.mem_cons_self _ _

theorem minRow_le {α : Type} {key : α → ℝ} {l : List α} {b : α}
    (h : minRow key l = some b) : ∀ r ∈ l, key b ≤ key r := by
  induction l generalizing b with
  | nil => simp
  | cons r rs ih =>
    simp only [minRow] at h
    split at h
    · rename_i hm
      cases h
      intro x hx
      rcases List.mem_cons.mp hx with hx | hx
      · subst hx; exact le_refl _
      · rw [minRow_eq_none_iff] at hm
        subst hm
        simp at hx
    · rename_i c hm
      by_cases hk : key c ≤ key r
      · rw [if_pos hk] at h
        cases h
        intro x hx
        rcases List.mem_cons.mp hx with hx | hx
        · subst hx; exact hk
        · exact ih hm x hx
      · rw [if_neg hk] at h
        cases h
        intro x hx
        rcases List.mem_cons.mp hx with hx | hx
        · subst hx; exact le_refl _
        · exact le_trans (le_of_not_le hk) (ih hm x hx)

/-- The filtered join of `find_nearest_mechanic` contains exactly the
mechanic/user pairs from the snapshot that the spec calls eligible. -/
theorem mem_candidate_rows (db : DB) (rlat rlon : Option ℝ) (p : Mechanic × User) :
    p ∈ candidate_rows db rlat rlon ↔
      p.1 ∈ db.mechanics ∧ p.2 ∈ db.users ∧ eligible rlat rlon p.1 p.2 := by
  unfold candidate_rows
  rw [List.mem_filter, List.mem_flatMap]
  constructor
  · rintro ⟨⟨m, hm, hp⟩, hf⟩
    rcases List.mem_map.mp hp with ⟨u, hu, hpu⟩
    subst hpu
    simp only [Bool.and_eq_true, beq_iff_eq, Option.isSome_iff_exists] at hf
    obtain ⟨⟨⟨⟨⟨⟨hid, hav⟩, hap⟩, hac⟩, _hlat⟩, _hlon⟩, hle⟩ := hf
    rcases (sqlLE_eq_true_iff _ _).mp hle with ⟨d, r, hd, hr, hdr⟩
    rcases calculate_distance_eq_some hd with ⟨a1, o1, a2, o2, hl1, hl2, _, _, _⟩
    exact ⟨hm, hu, hid, hav, hap, hac, by simp [hl1], by simp [hl2],
      d, r, hd, hr, hdr⟩
  · rintro ⟨hm, hu, hid, hav, hap, hac, hlat, hlon, d, r, hd, hr, hdr⟩
    refine ⟨⟨p.1, hm, List.mem_map.mpr ⟨p.2, hu, rfl⟩⟩, ?_⟩
    simp only [Bool.and_eq_true, beq_iff_eq, Option.isSome_iff_exists]
    refine ⟨⟨⟨⟨⟨⟨hid, hav⟩, hap⟩, hac⟩, ?_⟩, ?_⟩, ?_⟩
    · exact Option.ne_none_iff_exists'.mp hlat
    · exact Option.ne_none_iff_exists'.mp hlon
    · exact (sqlLE_eq_true_iff _ _).mpr ⟨d, r, hd, hr, hdr⟩

/-- On a row whose distance is non-NULL, the sort key is that distance. -/
theorem rowDist_eq {rlat rlon : Option ℝ} {p : Mechanic × User} {d : ℝ}
    (h : calculate_distance p.2.latitude p.2.longitude rlat rlon = some d) :
    rowDist rlat rlon p = d := by
  unfold rowDist
  rw [h]
  rfl

/-- A NULL among the four inputs makes `calculate_distance` return NULL. -/
theorem calculate_distance_eq_none {lat1 lon1 lat2 lon2 : Option ℝ}
    (h : lat1 = none ∨ lon1 = none ∨ lat2 = none ∨ lon2 = none) :
    calculate_distance lat1 lon1 lat2 lon2 = none := by
  cases lat1 <;> cases lon1 <;> cases lat2 <;> cases lon2 <;>
    simp [calculate_distance] at h ⊢

/-- Let-free form of `haversine_a`. -/
theorem haversine_a_def (lat1 lon1 lat2 lon2 : ℝ) :
    haversine_a lat1 lon1 lat2 lon2 =
      Real.sin (radians (lat2 - lat1) / 2) * Real.sin (radians (lat2 - lat1) / 2) +
        Real.cos (radians lat1) * Real.cos (radians lat2) *
        Real.sin (radians (lon2 - lon1) / 2) * Real.sin (radians (lon2 - lon1) / 2) := rfl

/-- Degrees in `[-90, 90]` map to radians in `[-π/2, π/2]`, where the
cosine is non-negative. -/
theorem cos_radians_nonneg {x : ℝ} (h1 : -90 ≤ x) (h2 : x ≤ 90) :
    0 ≤ Real.cos (radians x) := by
  have hpi := Real.pi_pos
  apply Real.cos_nonneg_of_mem_Icc
  constructor
  · unfold radians; nlinarith
  · unfold radians; nlinarith

/-- Half-angle identity in the multiplication-form the source uses. -/
theorem sin_half_mul_self (x : ℝ) :
    Real.sin (x / 2) * Real.sin (x / 2) = (1 - Real.cos x) / 2 := by
  have h2x : Real.cos (2 * (x / 2)) = 2 * Real.cos (x / 2) ^ 2 - 1 :=
    Real.cos_two_mul _
  have hx : (2 : ℝ) * (x / 2) = x := by ring
  rw [hx] at h2x
  have hpc : Real.sin (x / 2) ^ 2 + Real.cos (x / 2) ^ 2 = 1 :=
    Real.sin_sq_add_cos_sq _
  nlinarith [h2x, hpc]

/-- C5: on complete coordinates `calculate_distance` returns exactly the
haversine great-circle distance of §4.1 of the spec, with Earth radius
6371 km — `6371 * c`, `c = 2*atan2(sqrt a, sqrt (1-a))`,
`a = sin²(dlat/2) + cos(radians lat1)·cos(radians lat2)·sin²(dlon/2)`,
`dlat = radians(lat2-lat1)`, `dlon = radians(lon2-lon1)`. -/
theorem claim_C5 (lat1 lon1 lat2 lon2 : ℝ) :
    calculate_distance (some lat1) (some lon1) (some lat2) (some lon2) =
      some (haversineSpec lat1 lon1 lat2 lon2) := by
  show some (haversine lat1 lon1 lat2 lon2) = some (haversineSpec lat1 lon1 lat2 lon2)
  have ha : haversine_a lat1 lon1 lat2 lon2 =
      Real.sin (radians (lat2 - lat1) / 2) ^ 2 +
        Real.cos (radians lat1) * Real.cos (radians lat2) *
        Real.sin (radians (lon2 - lon1) / 2) ^ 2 := by
    rw [haversine_a_def]; ring
  unfold haversine haversineSpec
  rw [ha]

/-- C6: `calculate_distance` returns NULL whenever any of the four
components is missing; in that case the result is not 0 (and not any
number at all), so absence propagates rather than defaulting. -/
theorem claim_C6 (lat1 lon1 lat2 lon2 : Option ℝ)
    (h : lat1 = none ∨ lon1 = none ∨ lat2 = none ∨ lon2 = none) :
    calculate_distance lat1 lon1 lat2 lon2 = none ∧
      calculate_distance lat1 lon1 lat2 lon2 ≠ some 0 ∧
      ∀ x : ℝ, calculate_distance lat1 lon1 lat2 lon2 ≠ some x := by
  have hn := calculate_distance_eq_none h
  refine ⟨hn, ?_, ?_⟩
  · rw [hn]; exact fun hc => Option.noConfusion hc
  · intro x
    rw [hn]
    exact fun hc => Option.noConfusion hc

/-- C6 witness: a missing first latitude yields NULL, not a number. -/
theorem claim_C6_witness :
    (none = (none : Option ℝ) ∨ some (0 : ℝ) = none ∨ some (0 : ℝ) = none ∨
        some (0 : ℝ) = none) ∧
      calculate_distance none (some 0) (some 0) (some 0) = none ∧
      calculate_distance none (some 0) (some 0) (some 0) ≠ some 0 ∧
      ∀ x : ℝ, calculate_distance none (some 0) (some 0) (some 0) ≠ some x :=
  ⟨Or.inl rfl,
    claim_C6 none (some 0) (some 0) (some 0) (Or.inl rfl)⟩

/-- C9: with both latitudes in `[-90, 90]`, the haversine intermediate
`a` lies in `[0, 1]`, so `sqrt(a)` and `sqrt(1-a)` both receive
non-negative arguments and the square-root-of-negative error branch of
the SQL runtime is unreachable; `calculate_distance` is total there. -/
theorem claim_C9 (lat1 lon1 lat2 lon2 : ℝ)
    (h1 : -90 ≤ lat1) (h2 : lat1 ≤ 90) (h3 : -90 ≤ lat2) (h4 : lat2 ≤ 90) :
    0 ≤ haversine_a lat1 lon1 lat2 lon2 ∧
      haversine_a lat1 lon1 lat2 lon2 ≤ 1 ∧
      0 ≤ 1 - haversine_a lat1 lon1 lat2 lon2 := by
  have hc1 : 0 ≤ Real.cos (radians lat1) := cos_radians_nonneg h1 h2
  have hc2 : 0 ≤ Real.cos (radians lat2) := cos_radians_nonneg h3 h4
  have hrad : radians (lat2 - lat1) = radians lat2 - radians lat1 := by
    unfold radians; ring
  have hs : Real.sin (radians (lat2 - lat1) / 2) *
      Real.sin (radians (lat2 - lat1) / 2) =
      (1 - Real.cos (radians (lat2 - lat1))) / 2 := sin_half_mul_self _
  have hcs : Real.cos (radians (lat2 - lat1)) =
      Real.cos (radians lat2) * Real.cos (radians lat1) +
        Real.sin (radians lat2) * Real.sin (radians lat1) := by
    rw [hrad, Real.cos_sub]
  have hca : Real.cos (radians lat1 + radians lat2) =
      Real.cos (radians lat1) * Real.cos (radians lat2) -
        Real.sin (radians lat1) * Real.sin (radians lat2) := Real.cos_add _ _
  have hcle : Real.cos (radians lat1 + radians lat2) ≤ 1 := Real.cos_le_one _
  have ht : Real.sin (radians (lon2 - lon1) / 2) ^ 2 ≤ 1 := Real.sin_sq_le_one _
  have htt : Real.cos (radians lat1) * Real.cos (radians lat2) *
      Real.sin (radians (lon2 - lon1) / 2) ^ 2 ≤
      Real.cos (radians lat1) * Real.cos (radians lat2) * 1 :=
    mul_le_mul_of_nonneg_left ht (mul_nonneg hc1 hc2)
  rw [haversine_a_def]
  refine ⟨?_, ?_, ?_⟩
  · nlinarith [mul_self_nonneg (Real.sin (radians (lat2 - lat1) / 2)),
      mul_nonneg (mul_nonneg hc1 hc2)
        (mul_self_nonneg (Real.sin (radians (lon2 - lon1) / 2)))]
  · nlinarith [hs, hcs, hca, hcle, htt]
  · nlinarith [hs, hcs, hca, hcle, htt]

/-- C9 witness: the equatorial origin pair satisfies the latitude bounds
and the intermediate bounds. -/
theorem claim_C9_witness :
    ((-90 : ℝ) ≤ 0 ∧ (0 : ℝ) ≤ 90) ∧
      0 ≤ haversine_a 0 0 0 0 ∧ haversine_a 0 0 0 0 ≤ 1 ∧
        0 ≤ 1 - haversine_a 0 0 0 0 :=
  ⟨⟨by norm_num, by norm_num⟩,
    claim_C9 0 0 0 0 (by norm_num) (by norm_num) (by norm_num) (by norm_num)⟩

theorem find_nearest_mechanic_eq_none_iff (db : DB) (rlat rlon : Option ℝ) :
    find_nearest_mechanic db rlat rlon = none ↔
      candidate_rows db rlat rlon = [] := by
  unfold find_nearest_mechanic
  rw [Option.map_eq_none', minRow_eq_none_iff]

theorem find_nearest_mechanic_eq_some {db : DB} {rlat rlon : Option ℝ} {i : Nat}
    (h : find_nearest_mechanic db rlat rlon = some i) :
    ∃ p, minRow (rowDist rlat rlon) (candidate_rows db rlat rlon) = some p ∧
      p.1.id = i := by
  unfold find_nearest_mechanic at h
  cases hm : minRow (rowDist rlat rlon) (candidate_rows db rlat rlon) with
  | none => rw [hm] at h; simp at h
  | some p =>
    rw [hm] at h
    simp at h
    exact ⟨p, rfl, h⟩

/-- Case analysis of the trigger body: either the guard fails and nothing
happens, or no mechanic is found and nothing happens, or a mechanic is
found and the row is mutated and two notifications are inserted. -/
theorem assign_cases (db : DB) (NEW : ServiceRequest) :
    (¬(NEW.status = ServiceRequestStatus.pending ∧ NEW.mechanic_id = none) ∧
      assign_mechanic_to_service db NEW = (NEW, [])) ∨
    (NEW.status = ServiceRequestStatus.pending ∧ NEW.mechanic_id = none ∧
      find_nearest_mechanic db NEW.latitude NEW.longitude = none ∧
      assign_mechanic_to_service db NEW = (NEW, [])) ∨
    (∃ i, NEW.status = ServiceRequestStatus.pending ∧ NEW.mechanic_id = none ∧
      find_nearest_mechanic db NEW.latitude NEW.longitude = some i ∧
      assign_mechanic_to_service db NEW =
        ({ NEW with
            mechanic_id := some i,
            status := ServiceRequestStatus.assigned },
          [ { user_id := (db.mechanics.find? (fun m => m.id == i)).map
                (fun m => m.user_id),
              type := "service_assigned",
              title := "New Service Request",
              message := "You have been assigned a new service request",
              action_url := "/mechanic/services/" ++ toString NEW.id },
            { user_id := some NEW.customer_id,
              type := "mechanic_assigned",
              title := "Mechanic Assigned",
              message := "A mechanic has been assigned to your service request",
              action_url := "/customer/services/" ++ toString NEW.id } ])) := by
  by_cases hc : NEW.status = ServiceRequestStatus.pending ∧ NEW.mechanic_id = none
  · cases hf : find_nearest_mechanic db NEW.latitude NEW.longitude with
    | none =>
      refine Or.inr (Or.inl ⟨hc.1, hc.2, rfl, ?_⟩)
      unfold assign_mechanic_to_service
      rw [if_pos hc, hf]
    | some i =>
      refine Or.inr (Or.inr ⟨i, hc.1, hc.2, rfl, ?_⟩)
      unfold assign_mechanic_to_service
      rw [if_pos hc, hf]
  · refine Or.inl ⟨hc, ?_⟩
    unfold assign_mechanic_to_service
    rw [if_neg hc]

/-- C2: `find_nearest_mechanic` returns NULL exactly when no mechanic/user
pair in the snapshot is eligible; when it returns an id, that id belongs
to an eligible pair of minimal distance; and a missing request coordinate
yields NULL rather than an error. -/
theorem claim_C2 (db : DB) (rlat rlon : Option ℝ) :
    (find_nearest_mechanic db rlat rlon = none ↔
      ∀ m ∈ db.mechanics, ∀ u ∈ db.users, ¬ eligible rlat rlon m u) ∧
    (∀ i, find_nearest_mechanic db rlat rlon = some i →
      ∃ m u, m ∈ db.mechanics ∧ u ∈ db.users ∧ eligible rlat rlon m u ∧
        m.id = i ∧
        ∀ m' u' d d', m' ∈ db.mechanics → u' ∈ db.users →
          eligible rlat rlon m' u' →
          calculate_distance u.latitude u.longitude rlat rlon = some d →
          calculate_distance u'.latitude u'.longitude rlat rlon = some d' →
          d ≤ d') ∧
    ((rlat = none ∨ rlon = none) → find_nearest_mechanic db rlat rlon = none) := by
  refine ⟨?_, ?_, ?_⟩
  · rw [find_nearest_mechanic_eq_none_iff, List.eq_nil_iff_forall_not_mem]
    constructor
    · intro h m hm u hu hel
      exact h (m, u) ((mem_candidate_rows db rlat rlon (m, u)).mpr ⟨hm, hu, hel⟩)
    · intro h p hp
      rcases (mem_candidate_rows db rlat rlon p).mp hp with ⟨hm, hu, hel⟩
      exact h p.1 hm p.2 hu hel
  · intro i hi
    rcases find_nearest_mechanic_eq_some hi with ⟨p, hmin, hid⟩
    rcases (mem_candidate_rows db rlat rlon p).mp (minRow_mem hmin) with
      ⟨hm, hu, hel⟩
    refine ⟨p.1, p.2, hm, hu, hel, hid, ?_⟩
    intro m' u' d d' hm' hu' hel' hd hd'
    have hmem' : (m', u') ∈ candidate_rows db rlat rlon :=
      (mem_candidate_rows db rlat rlon (m', u')).mpr ⟨hm', hu', hel'⟩
    have hle := minRow_le hmin (m', u') hmem'
    rwa [rowDist_eq hd, rowDist_eq hd'] at hle
  · intro h
    rw [find_nearest_mechanic_eq_none_iff, List.eq_nil_iff_forall_not_mem]
    intro p hp
    rcases (mem_candidate_rows db rlat rlon p).mp hp with ⟨_, _, hel⟩
    rcases hel with ⟨_, _, _, _, _, _, d, r, hd, _, _⟩
    rcases calculate_distance_eq_some hd with ⟨a1, o1, a2, o2, _, _, hr2, ho2, _⟩
    cases h with
    | inl h => rw [h] at hr2; exact Option.noConfusion hr2
    | inr h => rw [h] at ho2; exact Option.noConfusion ho2

/-- C1: after the trigger runs on a newly created request (initial status
`pending`), a resulting status of `assigned` implies a non-null
`mechanic_id` naming a mechanic that was available, approved, owned by an
active account with a known position, and within its own service radius
of the request location. -/
theorem claim_C1 (db : DB) (NEW : ServiceRequest)
    (hnew : NEW.status = ServiceRequestStatus.pending)
    (hass : (assign_mechanic_to_service db NEW).1.status =
      ServiceRequestStatus.assigned) :
    ∃ mid, (assign_mechanic_to_service db NEW).1.mechanic_id = some mid ∧
      ∃ m u, m ∈ db.mechanics ∧ m.id = mid ∧ u ∈ db.users ∧
        u.id = m.user_id ∧ m.is_available = true ∧ m.is_approved = true ∧
        u.is_active = true ∧ u.latitude ≠ none ∧ u.longitude ≠ none ∧
        ∃ d r,
          calculate_distance u.latitude u.longitude NEW.latitude NEW.longitude =
            some d ∧ m.service_radius_km = some r ∧ d ≤ r := by
  rcases assign_cases db NEW with ⟨_, heq⟩ | ⟨_, _, _, heq⟩ |
    ⟨i, _, _, hf, heq⟩
  · rw [heq] at hass
    rw [hnew] at hass
    exact absurd hass (by simp)
  · rw [heq] at hass
    rw [hnew] at hass
    exact absurd hass (by simp)
  · rcases find_nearest_mechanic_eq_some hf with ⟨p, hmin, hid⟩
    rcases (mem_candidate_rows db NEW.latitude NEW.longitude p).mp
      (minRow_mem hmin) with ⟨hm, hu, hel⟩
    rcases hel with ⟨hown, hav, hap, hac, hlat, hlon, d, r, hd, hr, hdr⟩
    refine ⟨i, ?_, p.1, p.2, hm, hid, hu, hown, hav, hap, hac, hlat, hlon,
      d, r, hd, hr, hdr⟩
    rw [heq]

/-- C3: when no mechanic is found for a fresh pending request, the trigger
leaves the row untouched — status `pending`, `mechanic_id` NULL — and
inserts no notification (the embedding is a total function, so no error
is raised). -/
theorem claim_C3 (db : DB) (NEW : ServiceRequest)
    (h1 : NEW.status = ServiceRequestStatus.pending)
    (h2 : NEW.mechanic_id = none)
    (h3 : find_nearest_mechanic db NEW.latitude NEW.longitude = none) :
    assign_mechanic_to_service db NEW = (NEW, []) ∧
      (assign_mechanic_to_service db NEW).1.status =
        ServiceRequestStatus.pending ∧
      (assign_mechanic_to_service db NEW).1.mechanic_id = none ∧
      (assign_mechanic_to_service db NEW).2 = [] := by
  have heq : assign_mechanic_to_service db NEW = (NEW, []) := by
    unfold assign_mechanic_to_service
    rw [if_pos ⟨h1, h2⟩, h3]
  rw [heq]
  exact ⟨rfl, h1, h2, rfl⟩

/-- C4: when the trigger does assign a mechanic, it inserts exactly these
two notification rows: `service_assigned` to the mechanic's owning
account with the mechanic-side deep link, and `mechanic_assigned` to the
customer with the customer-side deep link, both URLs embedding the new
request's id. -/
theorem claim_C4 (db : DB) (NEW : ServiceRequest) (mid : Nat) (m : Mechanic)
    (h1 : NEW.status = ServiceRequestStatus.pending)
    (h2 : NEW.mechanic_id = none)
    (h3 : find_nearest_mechanic db NEW.latitude NEW.longitude = some mid)
    (h4 : db.mechanics.find? (fun x => x.id == mid) = some m) :
    (assign_mechanic_to_service db NEW).2 =
      [ { user_id := some m.user_id,
          type := "service_assigned",
          title := "New Service Request",
          message := "You have been assigned a new service request",
          action_url := "/mechanic/services/" ++ toString NEW.id },
        { user_id := some NEW.customer_id,
          type := "mechanic_assigned",
          title := "Mechanic Assigned",
          message := "A mechanic has been assigned to your service request",
          action_url := "/customer/services/" ++ toString NEW.id } ] := by
  unfold assign_mechanic_to_service
  rw [if_pos ⟨h1, h2⟩, h3]
  simp [h4]

/-- C7: on any request that is not a fresh unassigned pending row the
trigger is the identity with no notifications; in particular any request
whose status is `assigned` (such as the output of a successful first
invocation) passes through unchanged, so a repeat invocation reassigns
nothing and duplicates no notification. -/
theorem claim_C7 (db : DB) (NEW : ServiceRequest)
    (h : NEW.status ≠ ServiceRequestStatus.pending ∨ NEW.mechanic_id ≠ none) :
    assign_mechanic_to_service db NEW = (NEW, []) ∧
      ∀ (db2 : DB) (R : ServiceRequest),
        R.status = ServiceRequestStatus.assigned →
        assign_mechanic_to_service db2 R = (R, []) := by
  constructor
  · unfold assign_mechanic_to_service
    rw [if_neg ?_]
    rintro ⟨ha, hb⟩
    cases h with
    | inl h => exact h ha
    | inr h => exact h hb
  · intro db2 R hR
    unfold assign_mechanic_to_service
    rw [if_neg ?_]
    rintro ⟨ha, _⟩
    rw [hR] at ha
    exact absurd ha (by simp)

/-- C10: the trigger mutates at most `mechanic_id` and `status`; every
other column of the returned row equals the incoming row's, whether or
not a mechanic was found. -/
theorem claim_C10 (db : DB) (NEW : ServiceRequest) :
    (assign_mechanic_to_service db NEW).1.id = NEW.id ∧
      (assign_mechanic_to_service db NEW).1.customer_id = NEW.customer_id ∧
      (assign_mechanic_to_service db NEW).1.vehicle_type = NEW.vehicle_type ∧
      (assign_mechanic_to_service db NEW).1.vehicle_make = NEW.vehicle_make ∧
      (assign_mechanic_to_service db NEW).1.vehicle_model = NEW.vehicle_model ∧
      (assign_mechanic_to_service db NEW).1.vehicle_year = NEW.vehicle_year ∧
      (assign_mechanic_to_service db NEW).1.issue_description =
        NEW.issue_description ∧
      (assign_mechanic_to_service db NEW).1.latitude = NEW.latitude ∧
      (assign_mechanic_to_service db NEW).1.longitude = NEW.longitude ∧
      (assign_mechanic_to_service db NEW).1.address = NEW.address ∧
      (assign_mechanic_to_service db NEW).1.image_urls = NEW.image_urls ∧
      (assign_mechanic_to_service db NEW).1.scheduled_date =
        NEW.scheduled_date ∧
      (assign_mechanic_to_service db NEW).1.completed_date =
        NEW.completed_date ∧
      (assign_mechanic_to_service db NEW).1.estimated_cost =
        NEW.estimated_cost ∧
      (assign_mechanic_to_service db NEW).1.final_cost = NEW.final_cost ∧
      (assign_mechanic_to_service db NEW).1.created_at = NEW.created_at ∧
      (assign_mechanic_to_service db NEW).1.updated_at = NEW.updated_at := by
  rcases assign_cases db NEW with ⟨_, heq⟩ | ⟨_, _, _, heq⟩ | ⟨i, _, _, _, heq⟩ <;>
    rw [heq] <;> exact ⟨rfl, rfl, rfl, rfl, rfl, rfl, rfl, rfl, rfl, rfl, rfl,
      rfl, rfl, rfl, rfl, rfl, rfl⟩

theorem atan2_zero_one : atan2 0 1 = 0 := by
  unfold atan2
  rw [if_pos (by norm_num : (0 : ℝ) < 1)]
  norm_num

theorem haversine_a_zero : haversine_a 0 0 0 0 = 0 := by
  rw [haversine_a_def]
  norm_num [radians]

theorem haversine_zero : haversine 0 0 0 0 = 0 := by
  show 6371 * (2 * atan2 (Real.sqrt (haversine_a 0 0 0 0))
    (Real.sqrt (1 - haversine_a 0 0 0 0))) = 0
  rw [haversine_a_zero]
  norm_num [atan2_zero_one]

theorem eval_candidate_rows_db0 :
    candidate_rows db0 (some 0) (some 0) = [(m0, u0)] := by
  unfold candidate_rows db0
  norm_num [m0, u0, sqlLE, calculate_distance, haversine_zero]

theorem eval_find_nearest_db0 :
    find_nearest_mechanic db0 (some 0) (some 0) = some 1 := by
  unfold find_nearest_mechanic
  rw [eval_candidate_rows_db0]
  simp [minRow, m0]

theorem eval_find_nearest_dbEmpty :
    find_nearest_mechanic dbEmpty (some 0) (some 0) = none := rfl

theorem eval_assign_db0_req0 :
    assign_mechanic_to_service db0 req0 =
      ({ req0 with
          mechanic_id := some 1,
          status := ServiceRequestStatus.assigned },
        [ { user_id := some 10,
            type := "service_assigned",
            title := "New Service Request",
            message := "You have been assigned a new service request",
            action_url := "/mechanic/services/" ++ toString req0.id },
          { user_id := some req0.customer_id,
            type := "mechanic_assigned",
            title := "Mechanic Assigned",
            message := "A mechanic has been assigned to your service request",
            action_url := "/customer/services/" ++ toString req0.id } ]) := by
  unfold assign_mechanic_to_service
  rw [if_pos ⟨rfl, rfl⟩]
  rw [show req0.latitude = some 0 from rfl, show req0.longitude = some 0 from rfl]
  rw [eval_find_nearest_db0]
  rfl

theorem eval_assign_db0_req0_status :
    (assign_mechanic_to_service db0 req0).1.status =
      ServiceRequestStatus.assigned := by
  rw [eval_assign_db0_req0]

/-- C1 witness: on the concrete one-mechanic registry the freshly created
request comes out assigned, and the assigned mechanic meets every
eligibility condition. -/
theorem claim_C1_witness :
    req0.status = ServiceRequestStatus.pending ∧
      (assign_mechanic_to_service db0 req0).1.status =
        ServiceRequestStatus.assigned ∧
      ∃ mid, (assign_mechanic_to_service db0 req0).1.mechanic_id = some mid ∧
        ∃ m u, m ∈ db0.mechanics ∧ m.id = mid ∧ u ∈ db0.users ∧
          u.id = m.user_id ∧ m.is_available = true ∧ m.is_approved = true ∧
          u.is_active = true ∧ u.latitude ≠ none ∧ u.longitude ≠ none ∧
          ∃ d r,
            calculate_distance u.latitude u.longitude req0.latitude
              req0.longitude = some d ∧
            m.service_radius_km = some r ∧ d ≤ r :=
  ⟨rfl, eval_assign_db0_req0_status,
    claim_C1 db0 req0 rfl eval_assign_db0_req0_status⟩

/-- C2 witness: on the concrete registry the selector returns mechanic 1,
which is eligible and of minimal distance. -/
theorem claim_C2_witness :
    find_nearest_mechanic db0 (some 0) (some 0) = some 1 ∧
      ∃ m u, m ∈ db0.mechanics ∧ u ∈ db0.users ∧
        eligible (some 0) (some 0) m u ∧ m.id = 1 ∧
        ∀ m' u' d d', m' ∈ db0.mechanics → u' ∈ db0.users →
          eligible (some 0) (some 0) m' u' →
          calculate_distance u.latitude u.longitude (some 0) (some 0) =
            some d →
          calculate_distance u'.latitude u'.longitude (some 0) (some 0) =
            some d' →
          d ≤ d' :=
  ⟨eval_find_nearest_db0,
    (claim_C2 db0 (some 0) (some 0)).2.1 1 eval_find_nearest_db0⟩

/-- C3 witness: with an empty registry the request stays pending and
unassigned with no notifications. -/
theorem claim_C3_witness :
    req0.status = ServiceRequestStatus.pending ∧ req0.mechanic_id = none ∧
      find_nearest_mechanic dbEmpty req0.latitude req0.longitude = none ∧
      assign_mechanic_to_service dbEmpty req0 = (req0, []) ∧
      (assign_mechanic_to_service dbEmpty req0).1.status =
        ServiceRequestStatus.pending ∧
      (assign_mechanic_to_service dbEmpty req0).1.mechanic_id = none ∧
      (assign_mechanic_to_service dbEmpty req0).2 = [] :=
  ⟨rfl, rfl, eval_find_nearest_dbEmpty,
    claim_C3 dbEmpty req0 rfl rfl eval_find_nearest_dbEmpty⟩

/-- C4 witness: on the concrete registry the trigger inserts exactly the
two expected notification rows. -/
theorem claim_C4_witness :
    req0.status = ServiceRequestStatus.pending ∧ req0.mechanic_id = none ∧
      find_nearest_mechanic db0 req0.latitude req0.longitude = some 1 ∧
      db0.mechanics.find? (fun x => x.id == 1) = some m0 ∧
      (assign_mechanic_to_service db0 req0).2 =
        [ { user_id := some m0.user_id,
            type := "service_assigned",
            title := "New Service Request",
            message := "You have been assigned a new service request",
            action_url := "/mechanic/services/" ++ toString req0.id },
          { user_id := some req0.customer_id,
            type := "mechanic_assigned",
            title := "Mechanic Assigned",
            message := "A mechanic has been assigned to your service request",
            action_url := "/customer/services/" ++ toString req0.id } ] :=
  ⟨rfl, rfl, eval_find_nearest_db0, rfl,
    claim_C4 db0 req0 1 m0 rfl rfl eval_find_nearest_db0 rfl⟩

/-- C7 witness: an already-assigned request passes through the trigger
unchanged with no notifications. -/
theorem claim_C7_witness :
    (reqAssigned.status ≠ ServiceRequestStatus.pending ∨
        reqAssigned.mechanic_id ≠ none) ∧
      assign_mechanic_to_service db0 reqAssigned = (reqAssigned, []) ∧
      ∀ (db2 : DB) (R : ServiceRequest),
        R.status = ServiceRequestStatus.assigned →
        assign_mechanic_to_service db2 R = (R, []) :=
  ⟨Or.inl (fun h => ServiceRequestStatus.noConfusion h),
    claim_C7 db0 reqAssigned (Or.inl (fun h => ServiceRequestStatus.noConfusion h))⟩

/-- C8 counterexample: the `mechanics` schema carries no CHECK constraint
on `service_radius_km`, so an INSERT supplying the value `-1` is
accepted, producing a row whose service radius is not strictly
positive. -/
theorem claim_C8_counterexample :
    mechanicRowOk (insertMechanic 2 11 (some (some (-1))) none none) ∧
      (insertMechanic 2 11 (some (some (-1))) none none).service_radius_km =
        some (-1) ∧
      ¬ (∀ r : ℝ,
        (insertMechanic 2 11 (some (some (-1))) none none).service_radius_km =
          some r → 0 < r) := by
  refine ⟨?_, rfl, ?_⟩
  · intro r hr
    have hr1 : r = -1 := by
      have : (some (-1) : Option ℝ) = some r := hr
      exact (Option.some_inj.mp this).symm
    rw [hr1]
    norm_num
  · intro hall
    have h1 := hall (-1) rfl
    norm_num at h1

/-- C8 as amended: `service_radius_km` defaults to 10 when the column is
omitted at creation, and the schema accepts any `numeric(6,2)` value —
it does not enforce strict positivity. -/
theorem claim_C8 (id uid : Nat) (avail appr : Option Bool) :
    (insertMechanic id uid none avail appr).service_radius_km = some 10 ∧
      mechanicRowOk (insertMechanic id uid none avail appr) ∧
      ∃ m : Mechanic, mechanicRowOk m ∧
        ¬ (∀ r : ℝ, m.service_radius_km = some r → 0 < r) := by
  refine ⟨rfl, ?_, ?_⟩
  · intro r hr
    have hr10 : r = 10 := by
      have : (some 10 : Option ℝ) = some r := hr
      exact (Option.some_inj.mp this).symm
    rw [hr10]
    norm_num
  · refine ⟨insertMechanic 2 11 (some (some (-1))) none none, ?_, ?_⟩
    · intro r hr
      have hr1 : r = -1 := by
        have : (some (-1) : Option ℝ) = some r := hr
        exact (Option.some_inj.mp this).symm
      rw [hr1]
      norm_num
    · intro hall
      have h1 := hall (-1) rfl
      norm_num at h1

end AutoServe
